import Mathlib

/-!
Verification of the svggraph line-graph renderer (`svggraph/linegraphrender.py`).

The Python code is shallowly embedded: numeric values are modelled as rationals
(`ℚ`), Python `None` as `Option.none`, and code that can raise an exception
returns `Except String α`.  Python `int()` truncates toward zero, `//` is floor
division, `math.floor` / `math.ceil` are `⌊·⌋` / `⌈·⌉`, and `range(n)` over a
possibly negative bound is empty.
-/

/-- Python `int(q)`: truncation toward zero. -/
def py_int (q : ℚ) : ℤ := if 0 ≤ q then ⌊q⌋ else -⌊-q⌋

/-- Python `range(n)` for an integer `n` (empty when `n ≤ 0`). -/
def py_range (n : ℤ) : List ℕ := List.range n.toNat

/-- Python `range(a, b)` for a natural start `a` and integer stop `b`. -/
def py_range_from (a : ℕ) (b : ℤ) : List ℕ := List.range' a (b - a).toNat

/-- Python `len(str(n))` for an integer `n` (digit count, plus one for a minus sign). -/
def py_str_len_int (n : ℤ) : ℕ :=
  if n = 0 then 1
  else if 0 < n then (Nat.digits 10 n.toNat).length
  else (Nat.digits 10 (-n).toNat).length + 1

/-- Python `a % b` on floats: result has the sign of the divisor (floor-based). -/
def py_fmod (a b : ℚ) : ℚ := a - b * ⌊a / b⌋

/-- `SvgLineGraphSeriesStyle.__init__` (linegraphrender.py lines 151-180). -/
structure SvgLineGraphSeriesStyle where
  line_colour : String
  point_fill_colour : Option String
  point_outline_colour : Option String
  line_thickness : ℚ
  point_outline_thickness : ℚ
  show_points : Bool
  show_line : Bool
  point_radius : ℚ
  shade_under_line : Bool
  shade_colour : Option String
  key_shape : String
  key_colour : Option String
  deriving DecidableEq

/-- `SvgLineGraphSeries` (lines 226-260): a named data sequence.  `None` data
points are `Option.none`. -/
structure SvgLineGraphSeries where
  name : String
  data : List (Option ℚ)
  style : SvgLineGraphSeriesStyle
  deriving DecidableEq

/-- `SvgLineGraphSeries.num_points` (line 233). -/
def SvgLineGraphSeries.num_points (s : SvgLineGraphSeries) : ℕ := s.data.length

/-- `SvgLineGraphSeries.has_data` (line 237): `num_points > 0`. -/
def SvgLineGraphSeries.has_data (s : SvgLineGraphSeries) : Bool := s.num_points > 0

/-- The inner loop of `get_rolling_average` (lines 254-256): `total = 0` then
`for j in range(i, i + average_width): total += self.data[j]`.  Adding a `None`
raises a `TypeError`; an out-of-range index raises `IndexError`. -/
def sum_window (data : List (Option ℚ)) (i w : ℕ) : Except String ℚ :=
  (List.range w).foldlM (fun total j =>
    match data.get? (i + j) with
    | some (some y) => Except.ok (total + y)
    | some none => Except.error "TypeError"
    | none => Except.error "IndexError") 0

/-- `SvgLineGraphSeries.get_rolling_average` (lines 240-260).  The outer loop
runs `i` over Python `range(len(data) - average_width + 1)`, which is empty
when the bound is negative, hence `data.length + 1 - average_width` in `ℕ`.
Dividing by a zero `average_width` raises `ZeroDivisionError`. -/
def get_rolling_average (data : List (Option ℚ)) (average_width : ℕ) :
    Except String (List (Option ℚ)) :=
  if average_width = 0 then Except.error "ZeroDivisionError"
  else
    let before := average_width / 2
    ((List.range (data.length + 1 - average_width)).mapM (fun i =>
        (sum_window data i average_width).map
          (fun total => some (total / (average_width : ℚ))))).map
      (fun avgs => List.replicate before (none : Option ℚ) ++ avgs)

/-- `SvgLineGraphEvent` (lines 263-278). -/
structure SvgLineGraphEvent where
  x_position : ℤ
  name : String
  colour : Option String
  deriving DecidableEq

/-- Association-list lookup mirroring a Python dict read `events[p]`. -/
def lookup_event : List (ℤ × SvgLineGraphEvent) → ℤ → Option SvgLineGraphEvent
  | [], _ => none
  | (k, e) :: rest, p => if k = p then some e else lookup_event rest p

/-- Python dict assignment `self.events[x_position] = event` (line 349): replace
the entry at an existing key, otherwise append at the end. -/
def insert_event (events : List (ℤ × SvgLineGraphEvent)) (p : ℤ)
    (e : SvgLineGraphEvent) : List (ℤ × SvgLineGraphEvent) :=
  match events with
  | [] => [(p, e)]
  | (k, e0) :: rest =>
      if k = p then (k, e) :: rest else (k, e0) :: insert_event rest p e

/-- `SvgLineGraphStyle.__init__` (lines 16-148): the style options the renderer
reads. -/
structure SvgLineGraphStyle where
  grid_line_colour : String
  grid_line_minor_colour : String
  axis_line_colour : String
  scale_text_colour : String
  scale_text_size : ℚ
  y_scale_text_distance : ℚ
  y_scale_text_width : ℚ
  x_scale_text_height : ℚ
  y_scale_text_anchor : String
  x_scale_border : Bool
  x_label_rotation : ℚ
  show_key : Bool
  key_row_height : ℚ
  key_title : String
  key_title_text_colour : String
  key_title_text_size : ℚ
  key_title_width : ℚ
  key_label_text_colour : String
  key_label_text_size : ℚ
  key_max_rows : ℤ
  key_order_in_columns : Bool
  auto_format_y_axis : Bool
  y_label_units : Option String
  y_label_pre_units : Option String
  y_interval : Option ℚ
  y_minor_interval : Option ℚ
  show_minor_x_grid_lines : Bool
  show_minor_y_grid_lines : Bool
  top_margin : ℚ
  right_margin : ℚ
  bottom_margin : ℚ
  left_margin : ℚ
  y_min_intervals : Option ℤ
  start_y_from_zero : Bool
  x_scale_offset : ℚ
  event_label_text_colour : String
  event_label_text_height : ℚ
  event_label_text_size : ℚ
  event_label_text_rotation : ℚ
  event_default_colour : String
  event_line_thickness : ℚ
  event_triangle_size : ℚ
  deriving DecidableEq

/-- The default style values (lines 17-59). -/
def default_line_graph_style : SvgLineGraphStyle :=
  { grid_line_colour := "#bbb", grid_line_minor_colour := "#e0e0e0",
    axis_line_colour := "#333", scale_text_colour := "#555", scale_text_size := 12,
    y_scale_text_distance := 7, y_scale_text_width := 50, x_scale_text_height := 30,
    y_scale_text_anchor := "end", x_scale_border := false, x_label_rotation := 0,
    show_key := true, key_row_height := 34, key_title := "Key:",
    key_title_text_colour := "#555", key_title_text_size := 12, key_title_width := 150,
    key_label_text_colour := "#555", key_label_text_size := 12, key_max_rows := 1,
    key_order_in_columns := false, auto_format_y_axis := true, y_label_units := none,
    y_label_pre_units := none, y_interval := none, y_minor_interval := none,
    show_minor_x_grid_lines := true, show_minor_y_grid_lines := true, top_margin := 10,
    right_margin := 4, bottom_margin := 4, left_margin := 4, y_min_intervals := none,
    start_y_from_zero := false, x_scale_offset := 1, event_label_text_colour := "#555",
    event_label_text_height := 10, event_label_text_size := 12,
    event_label_text_rotation := 0, event_default_colour := "#5555ff",
    event_line_thickness := 1, event_triangle_size := 3 }

/-- `SvgLineGraph` instance state (lines 281-299). -/
structure SvgLineGraph where
  x_labels : Option (List String)
  series : List SvgLineGraphSeries
  y_min : Option ℚ
  y_max : Option ℚ
  x_range : ℕ
  style : SvgLineGraphStyle
  events : List (ℤ × SvgLineGraphEvent)
  deriving DecidableEq

/-- `SvgLineGraph.__init__` (lines 282-299): `x_range` starts at `len(x_labels)`
when `x_labels` is truthy (non-`None` and non-empty). -/
def mk_graph (x_labels : Option (List String)) (style : SvgLineGraphStyle) :
    SvgLineGraph :=
  { x_labels := x_labels, series := [], y_min := none, y_max := none,
    x_range := match x_labels with
      | some l => if l ≠ [] then l.length else 0
      | none => 0,
    style := style, events := [] }

/-- One iteration of the `for y in series.data` loop of `_add_series`
(lines 304-311): `None` values are skipped, others update the running
`y_min`/`y_max`. -/
def minmax_step (p : Option ℚ × Option ℚ) (y : Option ℚ) : Option ℚ × Option ℚ :=
  match y with
  | none => p
  | some y =>
      ((match p.1 with
        | none => some y
        | some m => if y < m then some y else some m),
       (match p.2 with
        | none => some y
        | some m => if y > m then some y else some m))

/-- `SvgLineGraph._add_series` (lines 301-315): append the series, fold its
non-`None` values into the running `y_min`/`y_max`, and enlarge `x_range`. -/
def _add_series (g : SvgLineGraph) (s : SvgLineGraphSeries) : SvgLineGraph :=
  let p := s.data.foldl minmax_step (g.y_min, g.y_max)
  { g with
    series := g.series ++ [s],
    y_min := p.1,
    y_max := p.2,
    x_range := if s.data.length > g.x_range then s.data.length else g.x_range }

/-- `SvgLineGraph.add_series` (lines 317-328). -/
def add_series (g : SvgLineGraph) (name : String) (series_data : List (Option ℚ))
    (series_style : SvgLineGraphSeriesStyle) : SvgLineGraph :=
  _add_series g ⟨name, series_data, series_style⟩

/-- Construct an `SvgLineGraphEvent`. -/
def mk_event (x_position : ℤ) (name : String) (colour : Option String) :
    SvgLineGraphEvent :=
  ⟨x_position, name, colour⟩

/-- `SvgLineGraph.add_event` (lines 338-349): one event per `x_position`;
a later event at the same position overwrites the former. -/
def SvgLineGraph.add_event (g : SvgLineGraph) (x_position : ℤ) (name : String)
    (colour : Option String) : SvgLineGraph :=
  { g with events := insert_event g.events x_position (mk_event x_position name colour) }

/-- A sequence of `add_event` calls. -/
def add_event_list (g : SvgLineGraph) (l : List (ℤ × String × Option String)) :
    SvgLineGraph :=
  l.foldl (fun g t => g.add_event t.1 t.2.1 t.2.2) g

/-- The body of `SvgLineGraph.get_default_y_interval` (lines 351-372) once
`y_min`/`y_max` are known to be numbers.  `target = int(delta_y / 10)`;
`num_digits = len(str(target))`. -/
def default_y_interval_core (y_min y_max : ℚ) : ℤ :=
  let delta_y := y_max - y_min
  let target := py_int (delta_y / 10)
  if target < 1 then 1
  else
    let num_digits := py_str_len_int target
    let exp := num_digits - 1
    if target ≤ 10 ^ exp then 10 ^ exp
    else if target ≤ 2 * 10 ^ exp then 2 * 10 ^ exp
    else if target ≤ 5 * 10 ^ exp then 5 * 10 ^ exp
    else 10 ^ (exp + 1)

/-- `SvgLineGraph.get_default_y_interval` (lines 351-372): `self.y_max -
self.y_min` raises a `TypeError` when either bound was never set. -/
def SvgLineGraph.get_default_y_interval (g : SvgLineGraph) : Except String ℤ :=
  match g.y_min, g.y_max with
  | some ymin, some ymax => Except.ok (default_y_interval_core ymin ymax)
  | _, _ => Except.error "TypeError"

/-- Membership in the set `{1, 2, 5} × 10^n` of "nice" intervals. -/
def is_nice_interval (m : ℤ) : Prop :=
  ∃ n : ℕ, m = 10 ^ n ∨ m = 2 * 10 ^ n ∨ m = 5 * 10 ^ n

/-- The minimum-interval-count enlargement in `render` (lines 466-484), as a
function of `style.y_min_intervals` and the snapped range.  Python `//` is
floor division, and `style.y_min_intervals and ...` skips the block when the
option is `None` or `0`. -/
def adjust_min_intervals (y_min_intervals : Option ℤ) (y_range_min y_range_max : ℤ) :
    ℤ × ℤ :=
  match y_min_intervals with
  | none => (y_range_min, y_range_max)
  | some target_range =>
    let y_range := y_range_max - y_range_min
    if target_range ≠ 0 ∧ y_range < target_range then
      let extra_range := target_range - y_range
      let add_above0 := Int.fdiv extra_range 2
      let add_below0 := extra_range - add_above0
      let clamp := 0 ≤ y_range_min ∧ y_range_min - add_below0 < 0
      let add_below := if clamp then y_range_min else add_below0
      let add_above := if clamp then extra_range - y_range_min else add_above0
      (y_range_min - add_below, y_range_max + add_above)
    else (y_range_min, y_range_max)

/-- A drawing primitive emitted through the `easysvg` canvas collaborator.
Only the attributes the renderer passes are modelled; coordinates are exact
rationals. -/
inductive SvgElem where
  | line (x1 y1 x2 y2 : ℚ) (stroke : String) (stroke_width : ℚ)
  | rect (x y w h : ℚ) (stroke : Option String) (fill : Option String)
  | circle (cx cy r : ℚ) (outline : Option String) (fill : Option String)
      (outline_thickness : ℚ)
  | text (content : String) (x y : ℚ) (anchor : String) (font_size : Option ℚ)
      (fill : String) (transform : Option (ℚ × ℚ × ℚ))
  | polygon (points : List (ℚ × ℚ)) (stroke : Option String) (fill : Option String)
  deriving DecidableEq

/-- Reading `self.x_labels[i]`: `TypeError` when `x_labels` is `None`,
`IndexError` when the index is out of range. -/
def label_at (x_labels : Option (List String)) (i : ℕ) : Except String String :=
  match x_labels with
  | none => Except.error "TypeError"
  | some l =>
    match l.get? i with
    | some s => Except.ok s
    | none => Except.error "IndexError"

/-- The y interval used by `render` (line 452): `style.y_interval if
style.y_interval else self.get_default_y_interval()` (a zero interval is
falsy). -/
def effective_y_interval (style : SvgLineGraphStyle) (y_min y_max : ℚ) : ℚ :=
  match style.y_interval with
  | some i => if i ≠ 0 then i else (default_y_interval_core y_min y_max : ℚ)
  | none => (default_y_interval_core y_min y_max : ℚ)

/-- The y-scale values `render` computes in lines 451-501. -/
structure YScale where
  y_math_interval : ℚ
  y_range_min : ℤ
  y_range_max : ℤ
  y_math_min : ℚ
  y_math_max : ℚ
  y_math_range : ℚ
  y_steps : ℤ
  deriving DecidableEq

/-- Lines 451-497 of `render`: pick the major interval, snap the range to
interval multiples, apply `start_y_from_zero`, the `y_min_intervals`
enlargement, and the degenerate zero-range expansion; finally
`y_steps = int(y_math_range / y_math_interval)`. -/
def compute_y_scale (style : SvgLineGraphStyle) (y_min y_max : ℚ) : YScale :=
  let y_math_interval := effective_y_interval style y_min y_max
  let y_range_min0 : ℤ := ⌊y_min / y_math_interval⌋
  let y_range_max0 : ℤ := ⌈y_max / y_math_interval⌉
  let y_range_min1 : ℤ :=
    if style.start_y_from_zero ∧ 0 < y_range_min0 then 0 else y_range_min0
  let y_range_max1 : ℤ :=
    if style.start_y_from_zero ∧ ¬ 0 < y_range_min0 ∧ y_range_max0 < 0 then 0
    else y_range_max0
  let p := adjust_min_intervals style.y_min_intervals y_range_min1 y_range_max1
  let y_range := p.2 - p.1
  let y_math_min0 : ℚ := (p.1 : ℚ) * y_math_interval
  let y_math_max0 : ℚ := (p.2 : ℚ) * y_math_interval
  let y_math_range0 : ℚ := (y_range : ℚ) * y_math_interval
  let y_math_min := if y_math_range0 = 0 then y_math_min0 - y_math_interval else y_math_min0
  let y_math_max := if y_math_range0 = 0 then y_math_max0 + y_math_interval else y_math_max0
  let y_math_range := if y_math_range0 = 0 then y_math_max - y_math_min else y_math_range0
  { y_math_interval := y_math_interval, y_range_min := p.1, y_range_max := p.2,
    y_math_min := y_math_min, y_math_max := y_math_max, y_math_range := y_math_range,
    y_steps := py_int (y_math_range / y_math_interval) }

/-- Lines 438-445 of `render`: `x_steps = x_math_range - x_math_offset`, forced
to `1` when zero. -/
def compute_x_steps (x_range : ℕ) : ℤ :=
  let x_math_range : ℤ := (x_range : ℤ) - 1
  if x_math_range = 0 then 1 else x_math_range

/-- The fractional digits of `q ∈ [0, 1)` in base 10 (with fuel, enough for the
terminating decimals produced by the y-label formatting). -/
def rat_frac_digits : ℕ → ℚ → List ℕ
  | 0, _ => []
  | fuel + 1, q =>
    if q = 0 then []
    else
      let d := ⌊q * 10⌋
      d.toNat :: rat_frac_digits fuel (q * 10 - (d : ℚ))

/-- Decimal rendering of a rational, as Python prints a `Decimal`. -/
def decimal_string (q : ℚ) : String :=
  let sign := if q < 0 then "-" else ""
  let a := |q|
  let ip := ⌊a⌋
  let fds := rat_frac_digits 30 (a - (ip : ℚ))
  if fds = [] then sign ++ toString ip
  else sign ++ toString ip ++ "." ++ String.join (fds.map (fun d => toString d))

/-- Lines 606-620 of `render`: format one y-scale value (k/m auto-formatting
and unit prefixes/suffixes). -/
def format_y_label (style : SvgLineGraphStyle) (y_value : ℤ) : String :=
  let base :=
    if style.auto_format_y_axis then
      if (1000000 : ℚ) ≤ (y_value : ℚ) then decimal_string ((y_value : ℚ) / 1000000) ++ "m"
      else if (1000 : ℚ) ≤ (y_value : ℚ) then decimal_string ((y_value : ℚ) / 1000) ++ "k"
      else toString y_value
    else toString y_value
  (style.y_label_pre_units.getD "") ++ base ++ (style.y_label_units.getD "")

/-- The empty-data placeholder (lines 430-436): a bordered rectangle and a
centred "(no data to display)" label. -/
def no_data_elems (left_margin top_margin x_plot_size y_plot_size : ℚ) :
    List SvgElem :=
  [SvgElem.rect left_margin top_margin x_plot_size y_plot_size (some "#aaa")
      (some "transparent"),
   SvgElem.text "(no data to display)" (left_margin + x_plot_size / 2)
      (top_margin + y_plot_size / 2) "middle" none "#999" none]

/-- The x grid lines (lines 547-557).  Note `self.x_labels[x_step]` on lines
550 and 552 is read without a bounds check; with `show_minor_x_grid_lines` set
the short-circuit `or` skips the read on line 550, but line 552 still performs
it. -/
def x_grid_stage (style : SvgLineGraphStyle) (x_labels : Option (List String))
    (x_steps : ℤ) (x2s : ℚ → ℚ) (y_screen_min y_screen_max : ℚ) :
    Except String (List SvgElem) :=
  if 1 < x_steps then
    (py_range_from 1 (x_steps + 1)).foldlM (fun acc x_step => do
      let cond ←
        if style.show_minor_x_grid_lines then pure true
        else do
          let lab ← label_at x_labels x_step
          pure (lab != "")
      if cond then do
        let lab ← label_at x_labels x_step
        let colour := if lab ≠ "" then style.grid_line_colour
          else style.grid_line_minor_colour
        pure (acc ++ [SvgElem.line (x2s (x_step : ℚ)) y_screen_min
          (x2s (x_step : ℚ)) y_screen_max colour 1])
      else pure acc) []
  else pure []

/-- The y major grid lines and x axis (lines 565-575): the step whose math y
equals `math_x_axis` (0 when the range straddles zero, else `y_range_min`) is
drawn in the axis colour, the others in the grid colour. -/
def y_grid_stage (style : SvgLineGraphStyle) (ys : YScale)
    (x_screen_min x_screen_max : ℚ) (y2s : ℚ → ℚ) : List SvgElem :=
  let math_x_axis : ℚ :=
    if ys.y_math_min < 0 ∧ 0 < ys.y_math_max then 0 else (ys.y_range_min : ℚ)
  (py_range (ys.y_steps + 1)).map (fun (y_step : ℕ) =>
    let math_y := (y_step : ℚ) * ys.y_math_interval + ys.y_math_min
    SvgElem.line x_screen_min (y2s math_y) x_screen_max (y2s math_y)
      (if math_y = math_x_axis then style.axis_line_colour else style.grid_line_colour) 1)

/-- The y minor grid lines (lines 577-596).  An invalid minor interval is
logged and skipped.  The `while math_y < y_math_max` loop is modelled by
iterating the exact number of times it runs (for a non-positive minor interval
the Python loop would not terminate; no element is produced here). -/
def minor_y_grid_stage (style : SvgLineGraphStyle) (ys : YScale)
    (x_screen_min x_screen_max : ℚ) (y2s : ℚ → ℚ) : List SvgElem :=
  match style.y_minor_interval with
  | none => []
  | some minor =>
    if minor ≠ 0 ∧ style.show_minor_y_grid_lines then
      let sub_divisions := ys.y_math_interval / minor
      if (⌊sub_divisions⌋ : ℚ) ≠ sub_divisions then []
      else
        let n : ℕ := if 0 < minor then ⌈(ys.y_math_max - ys.y_math_min) / minor⌉.toNat else 0
        (List.range n).foldl (fun acc k =>
          let math_y := ys.y_math_min + (k : ℚ) * minor
          if py_fmod math_y ys.y_math_interval = 0 then acc
          else acc ++ [SvgElem.line x_screen_min (y2s math_y) x_screen_max (y2s math_y)
            style.grid_line_minor_colour 1]) []
    else []

/-- The y scale labels (lines 602-624). -/
def y_scale_labels_stage (style : SvgLineGraphStyle) (ys : YScale)
    (x_screen_offset : ℚ) (y2s : ℚ → ℚ) : List SvgElem :=
  (py_range (ys.y_steps + 1)).map (fun (y_step : ℕ) =>
    let math_y := (y_step : ℚ) * ys.y_math_interval + ys.y_math_min
    let screen_y := y2s math_y
    let y_value : ℤ := py_int (ys.y_math_min + (y_step : ℚ) * ys.y_math_interval)
    SvgElem.text (format_y_label style y_value)
      (x_screen_offset - style.y_scale_text_distance) screen_y
      style.y_scale_text_anchor (some style.scale_text_size)
      style.scale_text_colour none)

/-- The x labels (lines 626-660).  Line 639 reads `self.x_labels[x_step]`
without a bounds check; the guard `x_step < len(self.x_labels)` only protects
the final emission on lines 656-660. -/
def x_labels_stage (style : SvgLineGraphStyle) (x_labels : Option (List String))
    (x_steps : ℤ) (x2s : ℚ → ℚ) (x_screen_min x_screen_range y_screen_min : ℚ) :
    Except String (List SvgElem) :=
  if x_steps = 1 then do
    let lab ← label_at x_labels 0
    pure [SvgElem.text lab (x_screen_min + x_screen_range / 2)
      (y_screen_min + style.x_scale_text_height / 2 + 1) "middle"
      (some style.scale_text_size) style.scale_text_colour none]
  else
    (py_range_from 0 (x_steps + 1)).foldlM (fun acc (x_step : ℕ) => do
      if style.x_scale_border ∧ x_step = 0 then pure acc
      else if style.x_scale_border ∧ (x_step : ℤ) = x_steps then pure acc
      else do
        let lab ← label_at x_labels x_step
        if lab = "" then pure acc
        else
          let screen_x := x2s (x_step : ℚ)
          if style.x_label_rotation ≠ 0 then
            let screen_y := y_screen_min + style.scale_text_size / 3 + style.x_scale_offset
            if x_step < (x_labels.getD []).length then
              pure (acc ++ [SvgElem.text lab screen_x screen_y "start"
                (some style.scale_text_size) style.scale_text_colour
                (some (style.x_label_rotation, screen_x, screen_y))])
            else pure acc
          else
            let screen_y := y_screen_min + style.x_scale_text_height / 2 + 1
            let anchor := if (x_step : ℤ) = x_steps then "end" else "middle"
            if x_step < (x_labels.getD []).length then
              pure (acc ++ [SvgElem.text lab screen_x screen_y anchor
                (some style.scale_text_size) style.scale_text_colour none])
            else pure acc) []

/-- The key/legend (lines 668-716).  `row_length = ceil(len(series) /
key_num_rows)` raises `ZeroDivisionError` when the row count is zero; an
unrecognized key shape raises (line 710). -/
def key_stage (style : SvgLineGraphStyle) (series : List SvgLineGraphSeries)
    (key_num_rows : ℤ) (key_height : ℚ) (width height right_margin x_screen_min : ℚ) :
    Except String (List SvgElem) :=
  if style.show_key then
    if key_num_rows = 0 then Except.error "ZeroDivisionError"
    else do
      let row_length : ℤ := ⌈(series.length : ℚ) / (key_num_rows : ℚ)⌉
      let key_x_offset := style.key_title_width + style.left_margin
      let key_y_offset := height - key_height - style.bottom_margin
      let key_width := width - right_margin - key_x_offset
      let key_item_width := key_width / (row_length : ℚ)
      let key_square_offset : ℚ := 10
      let key_square_size := style.key_row_height - key_square_offset * 2
      let title := SvgElem.text style.key_title x_screen_min
        (key_y_offset + style.key_row_height / 2 + 1) "start"
        (some style.key_title_text_size) style.key_title_text_colour none
      let entries ← series.enum.foldlM (fun acc p => do
        let i : ℤ := (p.1 : ℤ)
        let s := p.2
        let row : ℤ := if style.key_order_in_columns then Int.fmod i key_num_rows
          else Int.fdiv i row_length
        let row_pos : ℤ := if style.key_order_in_columns then Int.fdiv i key_num_rows
          else Int.fmod i row_length
        let row_y_offset := key_y_offset + (row : ℚ) * style.key_row_height
        let x := key_x_offset + (row_pos : ℚ) * key_item_width
        let y := row_y_offset + key_square_offset
        let colour := s.style.key_colour.getD s.style.line_colour
        let marker ←
          if s.style.key_shape = "square" then
            pure (SvgElem.rect x y key_square_size key_square_size none (some colour))
          else if s.style.key_shape = "circle" then
            let r := key_square_size / 2
            pure (SvgElem.circle (x + r) (y + r) r none (some colour) 1)
          else (Except.error "AttributeError" : Except String SvgElem)
        pure (acc ++ [marker,
          SvgElem.text s.name (x + key_square_size + key_square_offset)
            (row_y_offset + style.key_row_height / 2 + 1) "start"
            (some style.key_label_text_size) style.key_label_text_colour none])) []
      pure (title :: entries)
  else pure []

/-- The event markers (lines 718-758), given the events already sorted by
x position. -/
def events_stage (style : SvgLineGraphStyle)
    (sorted_events : List (ℤ × SvgLineGraphEvent)) (x_math_interval : ℚ)
    (x2s : ℚ → ℚ) (y_screen_min y_screen_max : ℚ) : List SvgElem :=
  sorted_events.foldl (fun acc pe =>
    let event := pe.2
    let math_x := (pe.1 : ℚ) * x_math_interval
    let screen_x := x2s math_x
    let bottom := y_screen_min
    let triangle_size := style.event_triangle_size
    let top := if triangle_size ≠ 0 then y_screen_max + triangle_size else y_screen_max
    let event_colour := event.colour.getD style.event_default_colour
    let tri : List SvgElem :=
      if triangle_size ≠ 0 then
        [SvgElem.polygon [(screen_x - triangle_size, top - triangle_size),
          (screen_x + triangle_size, top - triangle_size), (screen_x, top)]
          (some event_colour) (some event_colour)]
      else []
    let label_y := top - style.event_label_text_size / 2 - 1
    let anchor := if style.event_label_text_rotation ≠ 0 then "start" else "middle"
    let tf : Option (ℚ × ℚ × ℚ) :=
      if style.event_label_text_rotation ≠ 0 then
        some (-style.event_label_text_rotation, screen_x, label_y)
      else none
    acc ++ [SvgElem.line screen_x bottom screen_x top event_colour
        style.event_line_thickness] ++ tri ++
      [SvgElem.text event.name screen_x label_y anchor
        (some style.event_label_text_size) style.event_label_text_colour tf]) []

/-- Lines 760-775: the screen coordinates of a series' present points
(`None` values are skipped without shifting indices). -/
def screen_points (data : List (Option ℚ)) (x_math_interval : ℚ)
    (x2s y2s : ℚ → ℚ) : List (ℚ × ℚ) :=
  data.enum.foldl (fun acc p =>
    match p.2 with
    | none => acc
    | some math_y => acc ++ [(x2s ((p.1 : ℚ) * x_math_interval), y2s math_y)]) []

/-- The per-series geometry (lines 777-833): three full passes (shading, lines,
points), with the degenerate single-column branch indexing
`series._screen_points[0]` (an `IndexError` when a series has no present
point). -/
def series_geometry_stage (series : List SvgLineGraphSeries) (x_steps : ℤ)
    (x_math_interval : ℚ) (x2s y2s : ℚ → ℚ)
    (x_screen_min x_screen_max x_plot_size y_screen_min : ℚ) :
    Except String (List SvgElem) :=
  let sps := series.map (fun s => (s, screen_points s.data x_math_interval x2s y2s))
  if x_steps = 1 then do
    let shade ← sps.foldlM (fun acc p =>
      if p.1.style.shade_under_line then
        match p.2.head? with
        | none => Except.error "IndexError"
        | some p0 => pure (acc ++ [SvgElem.polygon
            [(x_screen_min, y_screen_min), (x_screen_min, p0.2),
             (x_screen_max, p0.2), (x_screen_max, y_screen_min)]
            none p.1.style.shade_colour])
      else pure acc) []
    let lines ← sps.foldlM (fun acc p =>
      if p.1.style.show_line then
        match p.2.head? with
        | none => Except.error "IndexError"
        | some p0 => pure (acc ++ [SvgElem.line x_screen_min p0.2
            (x_screen_min + x_plot_size) p0.2 p.1.style.line_colour
            p.1.style.line_thickness])
      else pure acc) []
    let points ← sps.foldlM (fun acc p =>
      if p.1.style.show_points then
        match p.2.head? with
        | none => Except.error "IndexError"
        | some p0 => pure (acc ++ [SvgElem.circle (x_screen_min + x_plot_size / 2)
            p0.2 p.1.style.point_radius p.1.style.point_outline_colour
            p.1.style.point_fill_colour p.1.style.point_outline_thickness])
      else pure acc) []
    pure (shade ++ lines ++ points)
  else do
    let shade ← sps.foldlM (fun acc p =>
      if p.1.style.shade_under_line then
        match p.2.head?, p.2.getLast? with
        | some p0, some plast => pure (acc ++ [SvgElem.polygon
            ((p0.1, y_screen_min) :: p.2 ++ [(plast.1, y_screen_min)])
            none p.1.style.shade_colour])
        | _, _ => Except.error "IndexError"
      else pure acc) []
    let lines := sps.foldl (fun acc p =>
      if p.1.style.show_line then
        acc ++ (p.2.zip p.2.tail).map (fun q =>
          SvgElem.line q.1.1 q.1.2 q.2.1 q.2.2 p.1.style.line_colour
            p.1.style.line_thickness)
      else acc) []
    let points := sps.foldl (fun acc p =>
      if p.1.style.show_points then
        acc ++ p.2.map (fun q => SvgElem.circle q.1 q.2 p.1.style.point_radius
          p.1.style.point_outline_colour p.1.style.point_fill_colour
          p.1.style.point_outline_thickness)
      else acc) []
    pure (shade ++ lines ++ points)

/-- Lines 719-721: `sorted(self.events.keys())` followed by dict lookups. -/
def sorted_event_list (events : List (ℤ × SvgLineGraphEvent)) :
    Except String (List (ℤ × SvgLineGraphEvent)) :=
  ((events.map Prod.fst).insertionSort (· ≤ ·)).mapM (fun p =>
    match lookup_event events p with
    | some e => Except.ok (p, e)
    | none => Except.error "KeyError")

/-- The body of `SvgLineGraph.render` (lines 374-836).  The graph's event
mapping enters only through its emptiness (line 404) and the sorted event list
(lines 719-721), which are passed in as arguments. -/
def render_core (x_labels : Option (List String)) (series : List SvgLineGraphSeries)
    (y_min y_max : Option ℚ) (x_range : ℕ) (style : SvgLineGraphStyle)
    (events_empty : Bool)
    (sorted_events : Except String (List (ℤ × SvgLineGraphEvent)))
    (width height : ℚ) : Except String (List SvgElem) :=
  let y_label_width := style.y_scale_text_width
  let x_label_height := style.x_scale_text_height
  let key_num_rows : ℤ :=
    if style.show_key then
      let r := ⌈(series.length : ℚ) / 2⌉
      if style.key_max_rows < r then style.key_max_rows else r
    else 0
  let key_height : ℚ := style.key_row_height * (key_num_rows : ℚ)
  let events_height : ℚ := if events_empty then 0 else style.event_label_text_height
  let left_margin := y_label_width + style.left_margin
  let right_margin := style.right_margin
  let top_margin := style.scale_text_size / 2 + style.top_margin + events_height
  let bottom_margin := x_label_height + key_height + style.bottom_margin
  let x_plot_size := width - left_margin - right_margin
  let y_plot_size := height - top_margin - bottom_margin
  let has_data := series.any (fun s => s.has_data)
  if has_data = false then
    Except.ok (no_data_elems left_margin top_margin x_plot_size y_plot_size)
  else
    match y_min, y_max with
    | some ymin, some ymax => do
      let x_math_offset : ℚ := 0
      let x_math_range : ℤ := (x_range : ℤ) - 1
      let x_math_interval : ℚ := 1
      let x_steps := compute_x_steps x_range
      let x_screen_offset := left_margin
      let x_screen_range := x_plot_size
      let x_screen_interval := x_screen_range / (x_steps : ℚ)
      let ys := compute_y_scale style ymin ymax
      let y_math_offset := ys.y_math_min
      let y_screen_offset := bottom_margin
      let y_screen_range := y_plot_size
      let y_screen_interval := y_screen_range / (ys.y_steps : ℚ)
      let x2s : ℚ → ℚ := fun mx => x_screen_offset + (mx - x_math_offset) * x_screen_interval
      let y2s : ℚ → ℚ := fun my =>
        height - y_screen_offset - ((my - y_math_offset) / ys.y_math_interval) * y_screen_interval
      let x_screen_min := x2s x_math_offset
      let x_screen_max0 := x2s (x_math_offset + (x_math_range : ℚ))
      let x_screen_max := if x_screen_max0 = x_screen_min then x2s (x_math_offset + 1)
        else x_screen_max0
      let y_screen_min := y2s y_math_offset
      let y_screen_max := y2s (y_math_offset + ys.y_math_range)
      let grid ← x_grid_stage style x_labels x_steps x2s y_screen_min y_screen_max
      let mid : List SvgElem :=
        if x_steps = 1 then
          [SvgElem.line (x_screen_min + x_plot_size / 2) y_screen_min
            (x_screen_min + x_plot_size / 2) (y_screen_min - y_plot_size)
            style.grid_line_colour 1]
        else []
      let ygrid := y_grid_stage style ys x_screen_min x_screen_max y2s
      let minor := minor_y_grid_stage style ys x_screen_min x_screen_max y2s
      let yaxis := [SvgElem.line (x2s 0) y_screen_min (x2s 0) y_screen_max
        style.axis_line_colour 1]
      let yscale := y_scale_labels_stage style ys x_screen_offset y2s
      let xlabels ← x_labels_stage style x_labels x_steps x2s x_screen_min
        x_screen_range y_screen_min
      let border : List SvgElem :=
        if style.x_scale_border then
          [SvgElem.line x_screen_min y_screen_min x_screen_min
            (y_screen_min + style.x_scale_text_height) style.grid_line_colour 1,
           SvgElem.line x_screen_max y_screen_min x_screen_max
            (y_screen_min + style.x_scale_text_height) style.grid_line_colour 1,
           SvgElem.line x_screen_min (y_screen_min + style.x_scale_text_height)
            x_screen_max (y_screen_min + style.x_scale_text_height)
            style.grid_line_colour 1]
        else []
      let key ← key_stage style series key_num_rows key_height width height
        right_margin x_screen_min
      let evs ← sorted_events
      let events := events_stage style evs x_math_interval x2s y_screen_min y_screen_max
      let sgeom ← series_geometry_stage series x_steps x_math_interval x2s y2s
        x_screen_min x_screen_max x_plot_size y_screen_min
      pure (grid ++ mid ++ ygrid ++ minor ++ yaxis ++ yscale ++ xlabels ++ border ++
        key ++ events ++ sgeom)
    | _, _ => Except.error "TypeError"

/-- `SvgLineGraph.render` (lines 374-836). -/
def SvgLineGraph.render (g : SvgLineGraph) (width height : ℚ) :
    Except String (List SvgElem) :=
  render_core g.x_labels g.series g.y_min g.y_max g.x_range g.style
    g.events.isEmpty (sorted_event_list g.events) width height

lemma except_ok_bind {α β : Type} (a : α) (f : α → Except String β) :
    (Except.ok a >>= f) = f a := rfl

lemma except_error_bind {α β : Type} (msg : String) (f : α → Except String β) :
    ((Except.error msg : Except String α) >>= f) = Except.error msg := rfl

/-- The average of the window of width `w` starting at index `i` (spec-side
description of one computed rolling-average entry). -/
def window_average (data : List (Option ℚ)) (i w : ℕ) : ℚ :=
  (((data.drop i).take w).filterMap id).sum / (w : ℚ)

lemma sum_window_eq (data : List (Option ℚ)) (i w : ℕ)
    (h : ∀ j, j < w → ∃ y, data.get? (i + j) = some (some y)) :
    sum_window data i w = Except.ok (((data.drop i).take w).filterMap id).sum := by
  induction w with
  | zero => simp [sum_window]; rfl
  | succ w ih =>
    obtain ⟨y, hy⟩ := h w (by omega)
    have hpre := ih (fun j hj => h j (by omega))
    have hdropw : (data.drop i)[w]? = some (some y) := by
      rw [← List.get?_eq_getElem?, List.get?_drop]; exact hy
    have htake : (data.drop i).take (w + 1) = (data.drop i).take w ++ [some y] := by
      rw [List.take_succ, hdropw]; rfl
    unfold sum_window at hpre ⊢
    rw [List.range_succ, List.foldlM_append, hpre]
    simp only [List.foldlM_cons, List.foldlM_nil, hy, htake, List.filterMap_append,
      except_ok_bind]
    simp
    rfl

lemma sum_window_ok_means (data : List (Option ℚ)) (i w : ℕ) (t : ℚ)
    (h : sum_window data i w = Except.ok t) :
    ∀ j, j < w → ∃ y, data.get? (i + j) = some (some y) := by
  induction w generalizing t with
  | zero => intro j hj; omega
  | succ w ih =>
    unfold sum_window at h
    rw [List.range_succ, List.foldlM_append] at h
    rcases hpre : (List.range w).foldlM (fun total j =>
        match data.get? (i + j) with
        | some (some y) => Except.ok (total + y)
        | some none => Except.error "TypeError"
        | none => Except.error "IndexError") (0 : ℚ) with msg | s
    · rw [hpre, except_error_bind] at h; simp at h
    · rw [hpre, except_ok_bind] at h
      intro j hj
      rcases Nat.lt_succ_iff_lt_or_eq.mp hj with hj' | rfl
      · exact ih s hpre j hj'
      · simp only [List.foldlM_cons, List.foldlM_nil] at h
        rcases hg : data.get? (i + j) with _ | y
        · rw [hg] at h; simp at h
        · rcases y with _ | y
          · rw [hg] at h; simp at h
          · exact ⟨y, rfl⟩

lemma mapM_ok_of_forall {α β : Type} (l : List α) (f : α → Except String β) (g : α → β)
    (h : ∀ a ∈ l, f a = Except.ok (g a)) : l.mapM f = Except.ok (l.map g) := by
  induction l with
  | nil => rfl
  | cons x xs ih =>
    rw [List.mapM_cons, h x (by simp), ih (fun a ha => h a (by simp [ha]))]
    rfl

lemma mapM_not_ok {α β : Type} (l : List α) (f : α → Except String β) (a : α)
    (ha : a ∈ l) (haf : ∀ b, f a ≠ Except.ok b) :
    ∀ res, l.mapM f ≠ Except.ok res := by
  induction l with
  | nil => simp at ha
  | cons x xs ih =>
    intro res hres
    rw [List.mapM_cons] at hres
    rcases hx : f x with msg | b
    · rw [hx, except_error_bind] at hres; simp at hres
    · rw [hx, except_ok_bind] at hres
      rcases List.mem_cons.mp ha with rfl | ha'
      · exact haf b hx
      · rcases hxs : xs.mapM f with msg | bs
        · rw [hxs, except_error_bind] at hres; simp at hres
        · exact ih ha' bs hxs

/-- C2 counterexample: with `y_min_intervals = 5` and snapped range `[5, 7]`
(which stays clear of zero, so no clamping applies), the code returns `(3, 8)`:
it adds 2 divisions below and only 1 above, so the larger half of the odd split
goes below, not above as the claim states. -/
theorem c2_counterexample :
    adjust_min_intervals (some 5) 5 7 = (3, 8) ∧
    ¬ (5 - (adjust_min_intervals (some 5) 5 7).1 ≤ (adjust_min_intervals (some 5) 5 7).2 - 8 + 1) := by
  decide

/-- C2 (amended): whenever `y_min_intervals` is configured as `k > 0` and the
snapped division count is smaller, the range grows to exactly `k` divisions,
with the extra divisions split so that the larger half goes BELOW when the
split is odd (`add_above = extra // 2`, `add_below = extra - add_above`); a
range starting at or above zero is never grown below zero: if the downward
growth would cross zero it is clamped to exactly reach zero and the remainder
is pushed upward.  (No symmetric clamp exists for all-non-positive ranges.) -/
theorem c2_min_intervals_amended (k rmin rmax : ℤ) (hk : 0 < k) (hle : rmin ≤ rmax)
    (hlt : rmax - rmin < k) :
    (adjust_min_intervals (some k) rmin rmax).2 - (adjust_min_intervals (some k) rmin rmax).1 = k ∧
    (adjust_min_intervals (some k) rmin rmax).1 ≤ rmin ∧
    rmax ≤ (adjust_min_intervals (some k) rmin rmax).2 ∧
    (0 ≤ rmin → 0 ≤ (adjust_min_intervals (some k) rmin rmax).1) ∧
    Int.fdiv (k - (rmax - rmin)) 2 ≤ k - (rmax - rmin) - Int.fdiv (k - (rmax - rmin)) 2 ∧
    (¬ (0 ≤ rmin ∧ rmin < k - (rmax - rmin) - Int.fdiv (k - (rmax - rmin)) 2) →
       (adjust_min_intervals (some k) rmin rmax).1
         = rmin - (k - (rmax - rmin) - Int.fdiv (k - (rmax - rmin)) 2) ∧
       (adjust_min_intervals (some k) rmin rmax).2
         = rmax + Int.fdiv (k - (rmax - rmin)) 2) ∧
    ((0 ≤ rmin ∧ rmin < k - (rmax - rmin) - Int.fdiv (k - (rmax - rmin)) 2) →
       (adjust_min_intervals (some k) rmin rmax).1 = 0 ∧
       (adjust_min_intervals (some k) rmin rmax).2 = rmax + (k - (rmax - rmin) - rmin)) := by
  have hfd : Int.fdiv (k - (rmax - rmin)) 2 = (k - (rmax - rmin)) / 2 :=
    Int.fdiv_eq_ediv _ (by norm_num)
  by_cases hclamp : 0 ≤ rmin ∧ rmin - (k - (rmax - rmin) - Int.fdiv (k - (rmax - rmin)) 2) < 0
  · have hpair : adjust_min_intervals (some k) rmin rmax
        = (rmin - rmin, rmax + (k - (rmax - rmin) - rmin)) := by
      simp only [adjust_min_intervals]
      rw [if_pos ⟨by omega, hlt⟩, if_pos hclamp, if_pos hclamp]
    rw [hpair, hfd] at *
    obtain ⟨hc1, hc2⟩ := hclamp
    exact ⟨by omega, by omega, by omega, fun _ => by omega, by omega,
      fun h => absurd ⟨hc1, by omega⟩ h, fun _ => by omega⟩
  · have hpair : adjust_min_intervals (some k) rmin rmax
        = (rmin - (k - (rmax - rmin) - Int.fdiv (k - (rmax - rmin)) 2),
           rmax + Int.fdiv (k - (rmax - rmin)) 2) := by
      simp only [adjust_min_intervals]
      rw [if_pos ⟨by omega, hlt⟩, if_neg hclamp, if_neg hclamp]
    rw [hpair, hfd] at *
    exact ⟨by omega, by omega, by omega, fun h1 => by omega, by omega,
      fun _ => by omega, fun h => absurd ⟨h.1, by omega⟩ hclamp⟩

/-- C5 counterexample: for all-numeric data of length 4 and even window
width 4, the output length is `4 / 2 + (4 - 4 + 1) = 3 ≠ 4`, refuting "output
length equals the input length exactly when W is even". -/
theorem c5_counterexample :
    (get_rolling_average [some 1, some 2, some 3, some 4] 4).map List.length
      = Except.ok 3 ∧ (4 : ℕ) % 2 = 0 ∧ (3 : ℕ) ≠ 4 :=
  ⟨rfl, rfl, by decide⟩

/-- C5 (amended): for all-numeric data of length `N ≥ W ≥ 1` the result is
`floor(W/2)` leading absent entries followed by the `N - W + 1` window
averages, so the output length is `floor(W/2) + (N - W + 1)`; this equals `N`
exactly when `W ≤ 2` (not when `W` is even). -/
theorem c5_rolling_average_amended (data : List (Option ℚ)) (w : ℕ) (h1 : 1 ≤ w)
    (h2 : w ≤ data.length) (hsome : ∀ x ∈ data, x ≠ none) :
    get_rolling_average data w
      = Except.ok (List.replicate (w / 2) (none : Option ℚ)
          ++ (List.range (data.length + 1 - w)).map
              (fun i => some (window_average data i w))) ∧
    ∀ out, get_rolling_average data w = Except.ok out →
      out.length = w / 2 + (data.length - w + 1) ∧
      (out.length = data.length ↔ w ≤ 2) := by
  have hok : get_rolling_average data w
      = Except.ok (List.replicate (w / 2) (none : Option ℚ)
          ++ (List.range (data.length + 1 - w)).map
              (fun i => some (window_average data i w))) := by
    unfold get_rolling_average
    rw [if_neg (by omega)]
    have hmap := mapM_ok_of_forall (List.range (data.length + 1 - w))
      (fun i => (sum_window data i w).map (fun total => some (total / (w : ℚ))))
      (fun i => some (window_average data i w)) ?_
    · rw [hmap]; rfl
    · intro i hi
      have hi' : i < data.length + 1 - w := List.mem_range.mp hi
      have hsw : sum_window data i w
          = Except.ok (((data.drop i).take w).filterMap id).sum := by
        apply sum_window_eq
        intro j hj
        have hlt : i + j < data.length := by omega
        have hget : data.get? (i + j) = some (data.get ⟨i + j, hlt⟩) :=
          List.get?_eq_get hlt
        have hmem : data.get ⟨i + j, hlt⟩ ∈ data := List.get_mem data _ _
        rcases hv : data.get ⟨i + j, hlt⟩ with _ | y
        · exact absurd (hv ▸ hmem) (by simpa using hsome none)
        · exact ⟨y, by rw [hget, hv]⟩
      show (sum_window data i w).map (fun total => some (total / (w : ℚ)))
          = Except.ok (some (window_average data i w))
      rw [hsw]
      rfl
  refine ⟨hok, fun out hout => ?_⟩
  rw [hok] at hout
  have : out = List.replicate (w / 2) (none : Option ℚ)
      ++ (List.range (data.length + 1 - w)).map
          (fun i => some (window_average data i w)) := by
    exact (Except.ok.injEq _ _).mp hout.symm
  subst this
  simp only [List.length_append, List.length_replicate, List.length_map,
    List.length_range]
  constructor
  · omega
  · omega

/-- C10: if a series of length `N ≥ W ≥ 1` contains an absent (`None`) value,
`get_rolling_average` raises instead of skipping the gap: every index is
covered by some window, and the window sum adds raw values directly. -/
theorem c10_rolling_average_gap (data : List (Option ℚ)) (w : ℕ) (h1 : 1 ≤ w)
    (h2 : w ≤ data.length) (hgap : none ∈ data) :
    ∃ msg, get_rolling_average data w = Except.error msg := by
  obtain ⟨pos, hpos⟩ := List.mem_iff_get?.mp hgap
  have hposlt : pos < data.length := by
    rcases List.get?_eq_some.mp hpos with ⟨hlt, _⟩
    exact hlt
  set i := pos + 1 - w with hi
  have hii : i < data.length + 1 - w := by omega
  have hij : i + (pos - i) = pos ∧ pos - i < w := by omega
  have hbad : ∀ b, ((sum_window data i w).map
      (fun total => some (total / (w : ℚ))) : Except String (Option ℚ)) ≠ Except.ok b := by
    intro b hb
    rcases hsw : sum_window data i w with msg | t
    · rw [hsw] at hb; exact Except.noConfusion hb
    · obtain ⟨y, hy⟩ := sum_window_ok_means data i w t hsw (pos - i) hij.2
      rw [hij.1] at hy
      rw [hpos] at hy
      simp at hy
  have hnotok := mapM_not_ok (List.range (data.length + 1 - w))
    (fun i => (sum_window data i w).map (fun total => some (total / (w : ℚ))))
    i (List.mem_range.mpr hii) hbad
  have hshape : get_rolling_average data w
      = ((List.range (data.length + 1 - w)).mapM
          (fun i => (sum_window data i w).map (fun total => some (total / (w : ℚ))))).map
        (fun avgs => List.replicate (w / 2) (none : Option ℚ) ++ avgs) := by
    unfold get_rolling_average
    rw [if_neg (by omega)]
  rcases hm : (List.range (data.length + 1 - w)).mapM
      (fun i => (sum_window data i w).map (fun total => some (total / (w : ℚ)))) with msg | res
  · exact ⟨msg, by rw [hshape, hm]; rfl⟩
  · exact absurd hm (hnotok res)

/-- C2 witness: at `y_min_intervals = 6`, snapped range `[1, 3]`, the clamp
case applies and the amended theorem's conclusions hold. -/
theorem c2_witness :
    (0 : ℤ) < 6 ∧ (1 : ℤ) ≤ 3 ∧ (3 : ℤ) - 1 < 6 ∧
    ((adjust_min_intervals (some 6) 1 3).2 - (adjust_min_intervals (some 6) 1 3).1 = 6 ∧
     (0 ≤ (1 : ℤ) ∧ (1 : ℤ) < 6 - ((3 : ℤ) - 1) - Int.fdiv (6 - ((3 : ℤ) - 1)) 2 →
        (adjust_min_intervals (some 6) 1 3).1 = 0 ∧
        (adjust_min_intervals (some 6) 1 3).2 = 3 + (6 - ((3 : ℤ) - 1) - 1))) := by
  have h := c2_min_intervals_amended 6 1 3 (by norm_num) (by norm_num) (by norm_num)
  exact ⟨by norm_num, by norm_num, by norm_num, h.1, h.2.2.2.2.2.2⟩

/-- C5 witness: window width 2 on three numeric points. -/
theorem c5_witness :
    (1 : ℕ) ≤ 2 ∧ (2 : ℕ) ≤ 3 ∧
    get_rolling_average [some 1, some 2, some 3] 2
      = Except.ok [none, some (3 / 2 : ℚ), some (5 / 2 : ℚ)] := by
  have h := (c5_rolling_average_amended [some 1, some 2, some 3] 2 (by norm_num)
    (by norm_num) (by decide)).1
  refine ⟨by norm_num, by norm_num, ?_⟩
  rw [h]
  simp [window_average, List.range_succ]
  norm_num

/-- C10 witness: a window of width 2 over data with a gap raises. -/
theorem c10_witness :
    ∃ msg, get_rolling_average [some 1, none, some 2] 2 = Except.error msg :=
  c10_rolling_average_gap [some 1, none, some 2] 2 (by norm_num) (by norm_num) (by decide)

/-- The selection logic of `get_default_y_interval` as a function of the
integer `target`. -/
def nice_select (target : ℤ) : ℤ :=
  if target < 1 then 1
  else
    let num_digits := py_str_len_int target
    let exp := num_digits - 1
    if target ≤ 10 ^ exp then 10 ^ exp
    else if target ≤ 2 * 10 ^ exp then 2 * 10 ^ exp
    else if target ≤ 5 * 10 ^ exp then 5 * 10 ^ exp
    else 10 ^ (exp + 1)

lemma default_y_interval_core_eq (ymin ymax : ℚ) :
    default_y_interval_core ymin ymax = nice_select (py_int ((ymax - ymin) / 10)) := rfl

lemma digits_bounds (t : ℕ) (ht : t ≠ 0) :
    10 ^ ((Nat.digits 10 t).length - 1) ≤ t ∧ t < 10 ^ (Nat.digits 10 t).length := by
  rw [Nat.digits_len 10 t (by norm_num) ht]
  constructor
  · simpa using Nat.pow_log_le_self 10 ht
  · simpa using Nat.lt_pow_succ_log_self (by norm_num) t

lemma nice_band (m : ℤ) (E : ℕ) (hm : is_nice_interval m)
    (hlow : 10 ^ E < m) (hhigh : m < 10 ^ (E + 1)) :
    m = 2 * 10 ^ E ∨ m = 5 * 10 ^ E := by
  obtain ⟨n, hn⟩ := hm
  have hn_le : n ≤ E := by
    by_contra hc
    push_neg at hc
    have h1 : (10 : ℤ) ^ (E + 1) ≤ 10 ^ n := pow_le_pow_right (by norm_num) hc
    have h2 : (10 : ℤ) ^ n ≤ m := by
      have hp : (0 : ℤ) < 10 ^ n := pow_pos (by norm_num) n
      rcases hn with rfl | rfl | rfl <;> nlinarith
    omega
  have hn_ge : E ≤ n := by
    by_contra hc
    push_neg at hc
    have hE1 : E = (E - 1) + 1 := by omega
    have h1 : (10 : ℤ) ^ n ≤ 10 ^ (E - 1) := pow_le_pow_right (by norm_num) (by omega)
    have hp : (0 : ℤ) < 10 ^ (E - 1) := pow_pos (by norm_num) _
    have h2 : m ≤ 5 * 10 ^ (E - 1) := by
      rcases hn with rfl | rfl | rfl <;> nlinarith
    have h3 : (10 : ℤ) ^ E = 10 ^ (E - 1) * 10 := by
      rw [← pow_succ]
      congr 1
      try omega
    omega
  have : n = E := by omega
  subst this
  have hp : (0 : ℤ) < 10 ^ n := pow_pos (by norm_num) n
  rcases hn with rfl | rfl | rfl
  · omega
  · exact Or.inl rfl
  · exact Or.inr rfl

lemma nice_select_spec (t : ℤ) (ht : 1 ≤ t) :
    is_nice_interval (nice_select t) ∧ t ≤ nice_select t ∧
    ∀ m : ℤ, is_nice_interval m → t ≤ m → nice_select t ≤ m := by
  have htn : t.toNat ≠ 0 := by omega
  have hcast : (t.toNat : ℤ) = t := Int.toNat_of_nonneg (by omega)
  obtain ⟨hlo, hhi⟩ := digits_bounds t.toNat htn
  have hlen1 : 1 ≤ (Nat.digits 10 t.toNat).length := by
    by_contra hc
    push_neg at hc
    interval_cases h : (Nat.digits 10 t.toNat).length
    · simp [h] at hhi; omega
  have hlen : py_str_len_int t = (Nat.digits 10 t.toNat).length := by
    unfold py_str_len_int
    rw [if_neg (by omega), if_pos (by omega)]
  have hEeq : (Nat.digits 10 t.toNat).length - 1 + 1 = (Nat.digits 10 t.toNat).length := by
    omega
  have hloZ : (10 : ℤ) ^ ((Nat.digits 10 t.toNat).length - 1) ≤ t := by
    rw [← hcast]
    exact_mod_cast hlo
  have hhiZ : t < (10 : ℤ) ^ ((Nat.digits 10 t.toNat).length - 1 + 1) := by
    rw [hEeq]
    have h2 : ((t.toNat : ℤ)) < ((10 ^ (Nat.digits 10 t.toNat).length : ℕ) : ℤ) := by
      exact_mod_cast hhi
    push_cast at h2
    rw [hcast] at h2
    exact h2
  have hsel : nice_select t =
      (if t ≤ 10 ^ ((Nat.digits 10 t.toNat).length - 1) then
        10 ^ ((Nat.digits 10 t.toNat).length - 1)
      else if t ≤ 2 * 10 ^ ((Nat.digits 10 t.toNat).length - 1) then
        2 * 10 ^ ((Nat.digits 10 t.toNat).length - 1)
      else if t ≤ 5 * 10 ^ ((Nat.digits 10 t.toNat).length - 1) then
        5 * 10 ^ ((Nat.digits 10 t.toNat).length - 1)
      else 10 ^ ((Nat.digits 10 t.toNat).length - 1 + 1)) := by
    unfold nice_select
    rw [if_neg (by omega), hlen]
  set E := (Nat.digits 10 t.toNat).length - 1 with hE
  have hp : (0 : ℤ) < 10 ^ E := pow_pos (by norm_num) E
  rw [hsel]
  split_ifs with h1 h2 h3
  · exact ⟨⟨E, Or.inl rfl⟩, h1, fun m hm hmt => le_trans hloZ hmt⟩
  · refine ⟨⟨E, Or.inr (Or.inl rfl)⟩, h2, fun m hm hmt => ?_⟩
    by_cases hmhigh : m < 10 ^ (E + 1)
    · rcases nice_band m E hm (by omega) hmhigh with rfl | rfl
      · omega
      · omega
    · push_neg at hmhigh
      have : (10 : ℤ) ^ (E + 1) = 10 * 10 ^ E := by ring
      omega
  · refine ⟨⟨E, Or.inr (Or.inr rfl)⟩, h3, fun m hm hmt => ?_⟩
    by_cases hmhigh : m < 10 ^ (E + 1)
    · rcases nice_band m E hm (by omega) hmhigh with rfl | rfl
      · omega
      · omega
    · push_neg at hmhigh
      have : (10 : ℤ) ^ (E + 1) = 10 * 10 ^ E := by ring
      omega
  · refine ⟨⟨E + 1, Or.inl rfl⟩, by omega, fun m hm hmt => ?_⟩
    by_cases hmhigh : m < 10 ^ (E + 1)
    · rcases nice_band m E hm (by omega) hmhigh with rfl | rfl
      · omega
      · omega
    · push_neg at hmhigh
      exact hmhigh

/-- C1: for every graph with `y_min <= y_max`, `get_default_y_interval` returns
1 when `int((y_max - y_min)/10) < 1`; otherwise it returns the first of the
ascending candidates `10^exp, 2*10^exp, 5*10^exp, 10^(exp+1)` that is
`>= target`, which is the smallest member of `{1,2,5} * 10^n` that is
`>= target`. -/
theorem c1_default_y_interval (g : SvgLineGraph) (a b : ℚ)
    (hmin : g.y_min = some a) (hmax : g.y_max = some b) (hab : a ≤ b) :
    (py_int ((b - a) / 10) < 1 → g.get_default_y_interval = Except.ok 1) ∧
    (1 ≤ py_int ((b - a) / 10) →
       ∃ v : ℤ, g.get_default_y_interval = Except.ok v ∧
         is_nice_interval v ∧ py_int ((b - a) / 10) ≤ v ∧
         ∀ m : ℤ, is_nice_interval m → py_int ((b - a) / 10) ≤ m → v ≤ m) := by
  have hru : g.get_default_y_interval = Except.ok (default_y_interval_core a b) := by
    rw [SvgLineGraph.get_default_y_interval, hmin, hmax]
  rw [default_y_interval_core_eq] at hru
  constructor
  · intro h
    rw [hru]
    unfold nice_select
    rw [if_pos h]
  · intro h
    obtain ⟨hn, hge, hmin'⟩ := nice_select_spec (py_int ((b - a) / 10)) h
    exact ⟨nice_select (py_int ((b - a) / 10)), hru, hn, hge, hmin'⟩

/-- A concrete graph state for the C1 witness. -/
def c1_example_graph : SvgLineGraph :=
  { x_labels := none, series := [], y_min := some 0, y_max := some 40,
    x_range := 0, style := default_line_graph_style, events := [] }

/-- C1 witness: at `y_min = 0`, `y_max = 40` the target is 4 and the selector
returns the smallest nice interval `>= 4`. -/
theorem c1_witness :
    ∃ v : ℤ, c1_example_graph.get_default_y_interval = Except.ok v ∧
      is_nice_interval v ∧ py_int (((40 : ℚ) - 0) / 10) ≤ v ∧
      ∀ m : ℤ, is_nice_interval m → py_int (((40 : ℚ) - 0) / 10) ≤ m → v ≤ m :=
  (c1_default_y_interval c1_example_graph 0 40 rfl rfl (by norm_num)).2
    (by norm_num [py_int])

/-- C6: if every series has zero-length data (including no series at all),
`render` draws only the bordered placeholder rectangle and the centred
"(no data to display)" label and returns immediately: the output is exactly
those two elements, so there are no gridlines, axes, scale labels or key. -/
theorem c6_no_data_placeholder (g : SvgLineGraph) (w h : ℚ)
    (hempty : ∀ s ∈ g.series, s.data = []) :
    ∃ px py bw bh cx cy,
      g.render w h = Except.ok
        [SvgElem.rect px py bw bh (some "#aaa") (some "transparent"),
         SvgElem.text "(no data to display)" cx cy "middle" none "#999" none] := by
  have hany : g.series.any (fun s => s.has_data) = false := by
    rw [List.any_eq_false]
    intro s hs
    simp [SvgLineGraphSeries.has_data, SvgLineGraphSeries.num_points, hempty s hs]
  unfold SvgLineGraph.render render_core
  rw [hany]
  simp only [no_data_elems, if_pos rfl]
  exact ⟨_, _, _, _, _, _, rfl⟩

/-- C6 witness: a graph with no series at all. -/
theorem c6_witness :
    ∃ px py bw bh cx cy,
      (mk_graph none default_line_graph_style).render 100 80 = Except.ok
        [SvgElem.rect px py bw bh (some "#aaa") (some "transparent"),
         SvgElem.text "(no data to display)" cx cy "middle" none "#999" none] :=
  c6_no_data_placeholder (mk_graph none default_line_graph_style) 100 80
    (by simp [mk_graph])

/-- A sequence of `add_series` calls. -/
def add_series_list (g : SvgLineGraph)
    (l : List (String × List (Option ℚ) × SvgLineGraphSeriesStyle)) : SvgLineGraph :=
  l.foldl (fun g t => add_series g t.1 t.2.1 t.2.2) g

lemma foldl_minmax_none (data : List (Option ℚ)) (hd : ∀ v ∈ data, v = none)
    (p : Option ℚ × Option ℚ) : data.foldl minmax_step p = p := by
  induction data generalizing p with
  | nil => rfl
  | cons v rest ih =>
    have hv : v = none := hd v (by simp)
    subst hv
    rw [List.foldl_cons]
    exact ih (fun v hv => hd v (by simp [hv])) p

lemma add_series_list_state (g : SvgLineGraph)
    (l : List (String × List (Option ℚ) × SvgLineGraphSeriesStyle))
    (hdata : ∀ p ∈ l, ∀ v ∈ p.2.1, v = none)
    (h1 : g.y_min = none) (h2 : g.y_max = none) :
    (add_series_list g l).y_min = none ∧ (add_series_list g l).y_max = none ∧
    (add_series_list g l).series
      = g.series ++ l.map (fun t => SvgLineGraphSeries.mk t.1 t.2.1 t.2.2) := by
  induction l generalizing g with
  | nil => simp [add_series_list, h1, h2]
  | cons t rest ih =>
    have hstep : add_series g t.1 t.2.1 t.2.2
        = { g with
            series := g.series ++ [SvgLineGraphSeries.mk t.1 t.2.1 t.2.2],
            y_min := none,
            y_max := none,
            x_range := if t.2.1.length > g.x_range then t.2.1.length else g.x_range } := by
      unfold add_series _add_series
      rw [h1, h2, foldl_minmax_none t.2.1 (hdata t (by simp))]
    have hrec := ih (add_series g t.1 t.2.1 t.2.2)
      (fun p hp => hdata p (by simp [hp]))
      (by rw [hstep]) (by rw [hstep])
    rw [add_series_list] at hrec ⊢
    rw [List.foldl_cons] at *
    refine ⟨hrec.1, hrec.2.1, ?_⟩
    rw [hrec.2.2, hstep]
    simp

/-- C9: the placeholder branch is taken only when every series has zero-length
data: a graph whose series are all non-empty but consist entirely of `None`
values has `has_data` true (it depends only on data length), skips the
placeholder, and `render` then fails because `y_min`/`y_max` were never set. -/
theorem c9_all_none_render_fails (g0 : SvgLineGraph) (hs0 : g0.series = [])
    (hy1 : g0.y_min = none) (hy2 : g0.y_max = none)
    (l : List (String × List (Option ℚ) × SvgLineGraphSeriesStyle)) (hne : l ≠ [])
    (hdata : ∀ p ∈ l, p.2.1 ≠ [] ∧ ∀ v ∈ p.2.1, v = none) (w h : ℚ) :
    (add_series_list g0 l).series.any (fun s => s.has_data) = true ∧
    ∃ msg, (add_series_list g0 l).render w h = Except.error msg := by
  obtain ⟨hmin, hmax, hser⟩ := add_series_list_state g0 l (fun p hp => (hdata p hp).2) hy1 hy2
  rcases l with _ | ⟨t, rest⟩
  · exact absurd rfl hne
  have hmem : SvgLineGraphSeries.mk t.1 t.2.1 t.2.2 ∈ (add_series_list g0 (t :: rest)).series := by
    rw [hser, hs0]
    simp
  have hany : (add_series_list g0 (t :: rest)).series.any (fun s => s.has_data) = true := by
    rw [List.any_eq_true]
    refine ⟨_, hmem, ?_⟩
    have hne' := (hdata t (by simp)).1
    simp [SvgLineGraphSeries.has_data, SvgLineGraphSeries.num_points]
    exact List.length_pos.mpr hne'
  refine ⟨hany, "TypeError", ?_⟩
  unfold SvgLineGraph.render render_core
  rw [hany, hmin, hmax]
  simp

/-- A plain series style used by the concrete example graphs. -/
def plain_series_style : SvgLineGraphSeriesStyle :=
  { line_colour := "red", point_fill_colour := none, point_outline_colour := none,
    line_thickness := 1, point_outline_thickness := 1, show_points := true,
    show_line := true, point_radius := 5, shade_under_line := false,
    shade_colour := none, key_shape := "square", key_colour := none }

/-- C9 witness: one non-empty series holding a single `None`. -/
theorem c9_witness :
    (add_series_list (mk_graph none default_line_graph_style)
        [("s", [none], plain_series_style)]).series.any (fun s => s.has_data) = true ∧
    ∃ msg, (add_series_list (mk_graph none default_line_graph_style)
        [("s", [none], plain_series_style)]).render 100 80 = Except.error msg :=
  c9_all_none_render_fails (mk_graph none default_line_graph_style) rfl rfl rfl
    [("s", [none], plain_series_style)] (by simp) (by simp) 100 80

/-- The graph of claim C8's failing input: two x labels but a series of three
points. -/
def c8_graph : SvgLineGraph :=
  add_series (mk_graph (some ["A", "B"]) default_line_graph_style) "s"
    [some 1, some 2, some 3] plain_series_style

lemma c8_graph_eq : c8_graph =
    { x_labels := some ["A", "B"],
      series := [SvgLineGraphSeries.mk "s" [some 1, some 2, some 3] plain_series_style],
      y_min := some 1, y_max := some 3, x_range := 3,
      style := default_line_graph_style, events := [] } := by
  unfold c8_graph add_series _add_series mk_graph
  norm_num [minmax_step]
  simp

/-- C8: when the longest series is longer than `x_labels`, `render` does NOT
complete: the unguarded reads `self.x_labels[x_step]` (lines 550/552 in the x
grid loop, line 639 in the label loop) raise `IndexError` before the guarded
emission at line 656 is ever reached.  Here two labels with three data points
fail in the grid loop at `x_step = 2`. -/
theorem c8_render_error : c8_graph.render 400 300 = Except.error "IndexError" := by
  rw [c8_graph_eq]
  rfl

lemma py_str_len_three : py_str_len_int 3 = 1 := by
  rw [py_str_len_int, if_neg (by norm_num), if_pos (by norm_num),
    show Int.toNat 3 = 3 from rfl, show Nat.digits 10 3 = [3] from by simp]
  rfl

lemma c3_interval : default_y_interval_core 10 40 = 5 := by
  have h : py_int ((40 - 10 : ℚ) / 10) = 3 := by norm_num [py_int]
  rw [default_y_interval_core_eq, h]
  rw [nice_select, if_neg (by norm_num), py_str_len_three]
  norm_num

def c3_graph : SvgLineGraph :=
  add_series (mk_graph (some ["Jan", "", "", "Apr"]) default_line_graph_style) "Sales"
    [some 10, some 20, some 15, some 40] plain_series_style

lemma c3_graph_eq : c3_graph =
    { x_labels := some ["Jan", "", "", "Apr"],
      series := [SvgLineGraphSeries.mk "Sales" [some 10, some 20, some 15, some 40]
        plain_series_style],
      y_min := some 10, y_max := some 40, x_range := 4,
      style := default_line_graph_style, events := [] } := by
  unfold c3_graph add_series _add_series mk_graph
  norm_num [minmax_step]
  simp

lemma c3_y_scale : compute_y_scale default_line_graph_style 10 40
    = { y_math_interval := 5, y_range_min := 2, y_range_max := 8, y_math_min := 10,
        y_math_max := 40, y_math_range := 30, y_steps := 6 } := by
  unfold compute_y_scale effective_y_interval adjust_min_intervals
  norm_num [default_line_graph_style, c3_interval, py_int]

def count_lines_with_stroke (es : List SvgElem) (c : String) : ℕ :=
  es.countP (fun e => match e with
    | SvgElem.line _ _ _ _ s _ => s == c
    | _ => false)

def count_circles (es : List SvgElem) : ℕ :=
  es.countP (fun e => match e with
    | SvgElem.circle _ _ _ _ _ _ => true
    | _ => false)

lemma beq_ite_string (c : Prop) [Decidable c] (a b x : String) :
    ((if c then a else b) == x) = (if c then a == x else b == x) :=
  apply_ite (· == x) c a b

set_option maxRecDepth 10000 in
lemma c3_render_count_lemma :
    (c3_graph.render 400 300).map
      (fun out => (count_lines_with_stroke out "red", count_circles out))
      = Except.ok (3, 4) := by
  have hceil : (⌈((2 : ℚ))⁻¹⌉ : ℤ) = 1 := by
    rw [Int.ceil_eq_iff]
    constructor <;> norm_num
  have hys := c3_y_scale
  unfold default_line_graph_style at hys
  rw [c3_graph_eq]
  simp only [SvgLineGraph.render]
  simp [render_core, hys, compute_x_steps, x_grid_stage, y_grid_stage,
    minor_y_grid_stage, y_scale_labels_stage, x_labels_stage, key_stage, events_stage,
    sorted_event_list, series_geometry_stage, screen_points, label_at, py_range,
    py_range_from, default_line_graph_style, plain_series_style,
    SvgLineGraphSeries.has_data, SvgLineGraphSeries.num_points,
    count_lines_with_stroke, count_circles, List.range_succ, List.range',
    List.countP_append, List.countP_cons, List.enum, List.enumFrom,
    except_ok_bind, except_error_bind, hceil, List.mapM.loop]
  simp [count_lines_with_stroke, count_circles, List.countP_cons,
    List.countP_nil, beq_ite_string, ite_self, Except.map]

/-- C3 counterexample: with the default style, `start_y_from_zero` is off, so
the computed y range for the example graph starts at `y_math_min = 10`; it
does not cover `[0, 40]`. -/
theorem c3_counterexample :
    c3_graph.y_min = some 10 ∧
    (compute_y_scale c3_graph.style 10 40).y_math_min = 10 ∧
    ¬ (compute_y_scale c3_graph.style 10 40).y_math_min ≤ 0 := by
  have hst : c3_graph.style = default_line_graph_style := by rw [c3_graph_eq]
  refine ⟨by rw [c3_graph_eq], ?_, ?_⟩ <;> rw [hst, c3_y_scale] <;> norm_num

/-- C3 (amended): for the example graph (`x_labels = ['Jan','','','Apr']`,
default style, one series 'Sales' = [10, 20, 15, 40] with line and points),
`render(400, 300)` computes `x_steps = 3` (4 x positions), a y range covering
`[10, 40]` (not `[0, 40]`: the default does not start from zero), the major
interval 5 selected by the interval rule, and exactly 3 line segments plus 4
point markers for the series. -/
theorem c3_example_amended :
    c3_graph.x_range = 4 ∧
    compute_x_steps c3_graph.x_range = 3 ∧
    c3_graph.y_min = some 10 ∧ c3_graph.y_max = some 40 ∧
    (compute_y_scale c3_graph.style 10 40).y_math_interval = 5 ∧
    (compute_y_scale c3_graph.style 10 40).y_math_min = 10 ∧
    (compute_y_scale c3_graph.style 10 40).y_math_max = 40 ∧
    (c3_graph.render 400 300).map
      (fun out => (count_lines_with_stroke out "red", count_circles out))
      = Except.ok (3, 4) := by
  have hst : c3_graph.style = default_line_graph_style := by rw [c3_graph_eq]
  refine ⟨by rw [c3_graph_eq], by rw [c3_graph_eq]; rfl, by rw [c3_graph_eq],
    by rw [c3_graph_eq], ?_, ?_, ?_, c3_render_count_lemma⟩ <;>
    rw [hst, c3_y_scale]

lemma one_le_default_core (a b : ℚ) : 1 ≤ default_y_interval_core a b := by
  rw [default_y_interval_core_eq]
  simp only [nice_select]
  have hp := pow_pos (by norm_num : (0:ℤ) < 10) (py_str_len_int (py_int ((b - a) / 10)) - 1)
  have hp1 := pow_pos (by norm_num : (0:ℤ) < 10)
    (py_str_len_int (py_int ((b - a) / 10)) - 1 + 1)
  split_ifs <;> omega

lemma effective_y_interval_pos (style : SvgLineGraphStyle) (a b : ℚ)
    (hint : ∀ i, style.y_interval = some i → 0 ≤ i) :
    0 < effective_y_interval style a b := by
  have hcore : (0 : ℚ) < (default_y_interval_core a b : ℚ) := by
    have := one_le_default_core a b
    exact_mod_cast lt_of_lt_of_le one_pos (by exact_mod_cast this)
  rcases hopt : style.y_interval with _ | i
  · unfold effective_y_interval
    rw [hopt]
    exact hcore
  · unfold effective_y_interval
    rw [hopt]
    dsimp only
    by_cases hi : i ≠ 0
    · rw [if_pos hi]
      rcases lt_or_eq_of_le (hint i hopt) with h | h
      · exact h
      · exact absurd h.symm hi
    · rw [if_neg hi]
      exact hcore

lemma adjust_min_intervals_extends (o : Option ℤ) (rmin rmax : ℤ) (h : rmin < 0) :
    (adjust_min_intervals o rmin rmax).1 ≤ rmin ∧
    rmax ≤ (adjust_min_intervals o rmin rmax).2 := by
  rcases o with _ | k
  · exact ⟨le_refl _, le_refl _⟩
  · simp only [adjust_min_intervals]
    split_ifs with hc hclamp
    · omega
    · have hfd : Int.fdiv (k - (rmax - rmin)) 2 = (k - (rmax - rmin)) / 2 :=
        Int.fdiv_eq_ediv _ (by norm_num)
      rw [hfd]
      constructor <;> simp <;> omega
    · exact ⟨le_refl _, le_refl _⟩

lemma py_int_intCast (n : ℤ) : py_int (n : ℚ) = n := by
  unfold py_int
  split_ifs with h
  · exact Int.floor_intCast n
  · rw [show (-(n : ℚ)) = ((-n : ℤ) : ℚ) by push_cast; ring, Int.floor_intCast]
    ring

lemma compute_y_scale_straddle (style : SvgLineGraphStyle) (a b : ℚ)
    (ha : a < 0) (hb : 0 < b)
    (hint : ∀ i, style.y_interval = some i → 0 ≤ i) :
    0 < (compute_y_scale style a b).y_math_interval ∧
    (compute_y_scale style a b).y_range_min < 0 ∧
    0 < (compute_y_scale style a b).y_range_max ∧
    (compute_y_scale style a b).y_math_min
      = ((compute_y_scale style a b).y_range_min : ℚ)
        * (compute_y_scale style a b).y_math_interval ∧
    (compute_y_scale style a b).y_math_max
      = ((compute_y_scale style a b).y_range_max : ℚ)
        * (compute_y_scale style a b).y_math_interval ∧
    (compute_y_scale style a b).y_steps
      = (compute_y_scale style a b).y_range_max
        - (compute_y_scale style a b).y_range_min := by
  have hi : 0 < effective_y_interval style a b := effective_y_interval_pos style a b hint
  set i := effective_y_interval style a b with hidef
  have hrmin0 : ⌊a / i⌋ < 0 := by
    have hdiv : a / i < 0 := div_neg_of_neg_of_pos ha hi
    by_contra hc
    push_neg at hc
    rw [Int.floor_nonneg] at hc
    linarith
  have hrmax0 : 0 < ⌈b / i⌉ := Int.ceil_pos.mpr (div_pos hb hi)
  have hs1 : (if style.start_y_from_zero ∧ 0 < ⌊a / i⌋ then 0 else ⌊a / i⌋) = ⌊a / i⌋ := by
    rw [if_neg]
    rintro ⟨_, hpos⟩
    omega
  have hs2 : (if style.start_y_from_zero ∧ ¬ 0 < ⌊a / i⌋ ∧ ⌈b / i⌉ < 0 then 0 else ⌈b / i⌉)
      = ⌈b / i⌉ := by
    rw [if_neg]
    rintro ⟨_, _, hneg⟩
    omega
  obtain ⟨hadj1, hadj2⟩ := adjust_min_intervals_extends style.y_min_intervals
    ⌊a / i⌋ ⌈b / i⌉ hrmin0
  have hp1 : (adjust_min_intervals style.y_min_intervals ⌊a / i⌋ ⌈b / i⌉).1 < 0 := by omega
  have hp2 : 0 < (adjust_min_intervals style.y_min_intervals ⌊a / i⌋ ⌈b / i⌉).2 := by omega
  have hR : (0 : ℚ) <
      (((adjust_min_intervals style.y_min_intervals ⌊a / i⌋ ⌈b / i⌉).2
        - (adjust_min_intervals style.y_min_intervals ⌊a / i⌋ ⌈b / i⌉).1 : ℤ) : ℚ) := by
    have : (0 : ℤ) < (adjust_min_intervals style.y_min_intervals ⌊a / i⌋ ⌈b / i⌉).2
        - (adjust_min_intervals style.y_min_intervals ⌊a / i⌋ ⌈b / i⌉).1 := by omega
    exact_mod_cast this
  have hrange_ne : (((adjust_min_intervals style.y_min_intervals ⌊a / i⌋ ⌈b / i⌉).2
        - (adjust_min_intervals style.y_min_intervals ⌊a / i⌋ ⌈b / i⌉).1 : ℤ) : ℚ) * i ≠ 0 :=
    ne_of_gt (mul_pos hR hi)
  simp only [compute_y_scale]
  rw [← hidef, hs1, hs2]
  simp only [if_neg hrange_ne]
  refine ⟨hi, hp1, hp2, trivial, trivial, ?_⟩
  rw [mul_div_cancel_right₀ _ (ne_of_gt hi), py_int_intCast]

/-- C4: for every graph whose data straddles zero (`y_min < 0 < y_max`, with a
sanely configured y interval), the y-step sequence drawn by `render` (lines
565-575) includes a step at math-y 0, and the y grid pass draws that line in
the axis colour and every other major y gridline in the grid colour. -/
theorem c4_zero_axis (g : SvgLineGraph) (a b : ℚ) (hmin : g.y_min = some a)
    (hmax : g.y_max = some b) (ha : a < 0) (hb : 0 < b)
    (hint : ∀ i, g.style.y_interval = some i → 0 ≤ i) :
    ((0 : ℚ) ∈ (py_range ((compute_y_scale g.style a b).y_steps + 1)).map
        (fun (s : ℕ) => (s : ℚ) * (compute_y_scale g.style a b).y_math_interval
          + (compute_y_scale g.style a b).y_math_min)) ∧
    ∀ xmin xmax y2s, y_grid_stage g.style (compute_y_scale g.style a b) xmin xmax y2s
      = (py_range ((compute_y_scale g.style a b).y_steps + 1)).map (fun (y_step : ℕ) =>
          SvgElem.line xmin
            (y2s ((y_step : ℚ) * (compute_y_scale g.style a b).y_math_interval
              + (compute_y_scale g.style a b).y_math_min))
            xmax
            (y2s ((y_step : ℚ) * (compute_y_scale g.style a b).y_math_interval
              + (compute_y_scale g.style a b).y_math_min))
            (if (y_step : ℚ) * (compute_y_scale g.style a b).y_math_interval
                + (compute_y_scale g.style a b).y_math_min = 0
              then g.style.axis_line_colour else g.style.grid_line_colour) 1) := by
  obtain ⟨hi, hm1, hm2, hmin_eq, hmax_eq, hsteps⟩ :=
    compute_y_scale_straddle g.style a b ha hb hint
  have hmneg : (compute_y_scale g.style a b).y_math_min < 0 := by
    rw [hmin_eq]
    exact mul_neg_of_neg_of_pos (by exact_mod_cast hm1) hi
  have hmpos : 0 < (compute_y_scale g.style a b).y_math_max := by
    rw [hmax_eq]
    exact mul_pos (by exact_mod_cast hm2) hi
  have hmemnat : (-(compute_y_scale g.style a b).y_range_min).toNat
      < ((compute_y_scale g.style a b).y_steps + 1).toNat := by omega
  have hcast : (((-(compute_y_scale g.style a b).y_range_min).toNat : ℕ) : ℚ)
      = -((compute_y_scale g.style a b).y_range_min : ℚ) := by
    have h1 : ((-(compute_y_scale g.style a b).y_range_min).toNat : ℤ)
        = -(compute_y_scale g.style a b).y_range_min := by omega
    exact_mod_cast congrArg (fun z : ℤ => (z : ℚ)) h1
  have hval : ((((-(compute_y_scale g.style a b).y_range_min).toNat : ℕ)) : ℚ)
        * (compute_y_scale g.style a b).y_math_interval
        + (compute_y_scale g.style a b).y_math_min = 0 := by
    rw [hcast, hmin_eq]
    ring
  constructor
  · have hm := List.mem_map_of_mem
      (fun s : ℕ => (s : ℚ) * (compute_y_scale g.style a b).y_math_interval
        + (compute_y_scale g.style a b).y_math_min)
      (List.mem_range.mpr hmemnat)
    rw [py_range]
    simp only at hm
    rw [hval] at hm
    exact hm
  · intro xmin xmax y2s
    simp only [y_grid_stage]
    rw [if_pos ⟨hmneg, hmpos⟩]

/-- A concrete graph state for the C4 witness: data straddling zero. -/
def c4_example_graph : SvgLineGraph :=
  { x_labels := some ["a", "b"],
    series := [SvgLineGraphSeries.mk "s" [some (-5), some 10] plain_series_style],
    y_min := some (-5), y_max := some 10, x_range := 2,
    style := default_line_graph_style, events := [] }

/-- C4 witness: a default-styled graph over data [-5, 10]. -/
theorem c4_witness :
    ((0 : ℚ) ∈ (py_range ((compute_y_scale c4_example_graph.style (-5) 10).y_steps + 1)).map
        (fun (s : ℕ) => (s : ℚ)
            * (compute_y_scale c4_example_graph.style (-5) 10).y_math_interval
          + (compute_y_scale c4_example_graph.style (-5) 10).y_math_min)) ∧
    ∀ xmin xmax y2s, y_grid_stage c4_example_graph.style
        (compute_y_scale c4_example_graph.style (-5) 10) xmin xmax y2s
      = (py_range ((compute_y_scale c4_example_graph.style (-5) 10).y_steps + 1)).map
          (fun (y_step : ℕ) =>
          SvgElem.line xmin
            (y2s ((y_step : ℚ) * (compute_y_scale c4_example_graph.style (-5) 10).y_math_interval
              + (compute_y_scale c4_example_graph.style (-5) 10).y_math_min))
            xmax
            (y2s ((y_step : ℚ) * (compute_y_scale c4_example_graph.style (-5) 10).y_math_interval
              + (compute_y_scale c4_example_graph.style (-5) 10).y_math_min))
            (if (y_step : ℚ) * (compute_y_scale c4_example_graph.style (-5) 10).y_math_interval
                + (compute_y_scale c4_example_graph.style (-5) 10).y_math_min = 0
              then c4_example_graph.style.axis_line_colour
              else c4_example_graph.style.grid_line_colour) 1) :=
  c4_zero_axis c4_example_graph (-5) 10 rfl rfl (by norm_num) (by norm_num)
    (fun i h => by simp [c4_example_graph, default_line_graph_style] at h)

lemma lookup_insert_event_self (l : List (ℤ × SvgLineGraphEvent)) (p : ℤ)
    (e : SvgLineGraphEvent) : lookup_event (insert_event l p e) p = some e := by
  induction l with
  | nil => simp [insert_event, lookup_event]
  | cons he rest ih =>
    rcases he with ⟨k, e0⟩
    by_cases hk : k = p
    · subst hk
      simp [insert_event, lookup_event]
    · simp [insert_event, lookup_event, hk, ih]

lemma lookup_event_none_of_not_mem (l : List (ℤ × SvgLineGraphEvent)) (p : ℤ)
    (h : p ∉ l.map Prod.fst) : lookup_event l p = none := by
  induction l with
  | nil => rfl
  | cons he rest ih =>
    rcases he with ⟨k, e0⟩
    simp only [List.map_cons, List.mem_cons] at h
    push_neg at h
    rw [lookup_event, if_neg (fun hk => h.1 hk.symm)]
    exact ih h.2

lemma insert_event_fresh (l : List (ℤ × SvgLineGraphEvent)) (p : ℤ)
    (e : SvgLineGraphEvent) (h : lookup_event l p = none) :
    insert_event l p e = l ++ [(p, e)] := by
  induction l with
  | nil => rfl
  | cons he rest ih =>
    rcases he with ⟨k, e0⟩
    rw [lookup_event] at h
    by_cases hk : k = p
    · rw [if_pos hk] at h
      exact absurd h (by simp)
    · rw [if_neg hk] at h
      rw [insert_event, if_neg hk, ih h]
      simp

lemma lookup_event_mem (l : List (ℤ × SvgLineGraphEvent)) (p : ℤ)
    (h : p ∈ l.map Prod.fst) : ∃ e, lookup_event l p = some e := by
  induction l with
  | nil => simp at h
  | cons he rest ih =>
    rcases he with ⟨k, e0⟩
    by_cases hk : k = p
    · exact ⟨e0, by rw [lookup_event, if_pos hk]⟩
    · rw [lookup_event, if_neg hk]
      apply ih
      simp at h
      rcases h with h | h
      · exact absurd h.symm hk
      · simpa using h

lemma lookup_event_perm (l1 l2 : List (ℤ × SvgLineGraphEvent)) (hperm : l1.Perm l2)
    (hnd : (l1.map Prod.fst).Nodup) (p : ℤ) :
    lookup_event l1 p = lookup_event l2 p := by
  induction hperm with
  | nil => rfl
  | cons x l ih =>
    rcases x with ⟨k, e⟩
    rw [lookup_event, lookup_event]
    by_cases hk : k = p
    · rw [if_pos hk, if_pos hk]
    · rw [if_neg hk, if_neg hk]
      exact ih (by simp at hnd; exact hnd.2)
  | swap x y l =>
    rcases x with ⟨k1, e1⟩
    rcases y with ⟨k2, e2⟩
    simp only [List.map_cons, List.nodup_cons, List.mem_cons] at hnd
    push_neg at hnd
    rw [lookup_event, lookup_event, lookup_event, lookup_event]
    by_cases h2 : k2 = p <;> by_cases h1 : k1 = p
    · exact absurd (h2.trans h1.symm) hnd.1.1
    · simp [h1, h2]
    · simp [h1, h2]
    · simp [h1, h2]
  | trans hab hbc ih1 ih2 =>
    rw [ih1 hnd, ih2 ((hab.map Prod.fst).nodup_iff.mp hnd)]

lemma mapM_event_lookup_ok (events : List (ℤ × SvgLineGraphEvent)) (ks : List ℤ)
    (h : ∀ p ∈ ks, ∃ e, lookup_event events p = some e) :
    ∃ evs, (ks.mapM (fun p =>
        match lookup_event events p with
        | some e => Except.ok (p, e)
        | none => Except.error "KeyError")
      : Except String (List (ℤ × SvgLineGraphEvent))) = Except.ok evs ∧
      evs.map Prod.fst = ks := by
  induction ks with
  | nil => exact ⟨[], rfl, rfl⟩
  | cons k rest ih =>
    obtain ⟨e, he⟩ := h k (by simp)
    obtain ⟨evs, hevs, hfst⟩ := ih (fun p hp => h p (by simp [hp]))
    refine ⟨(k, e) :: evs, ?_, by simp [hfst]⟩
    rw [List.mapM_cons, he]
    simp only [hevs]
    rfl

lemma mapM_congr_fun {α β : Type} (l : List α) (f g : α → Except String β)
    (h : ∀ a ∈ l, f a = g a) : l.mapM f = l.mapM g := by
  induction l with
  | nil => rfl
  | cons x xs ih =>
    rw [List.mapM_cons, List.mapM_cons, h x (by simp), ih (fun a ha => h a (by simp [ha]))]

lemma insertion_sort_perm_eq (l1 l2 : List ℤ) (h : l1.Perm l2) :
    l1.insertionSort (· ≤ ·) = l2.insertionSort (· ≤ ·) :=
  List.eq_of_perm_of_sorted
    ((List.perm_insertionSort _ l1).trans (h.trans (List.perm_insertionSort _ l2).symm))
    (List.sorted_insertionSort _ l1) (List.sorted_insertionSort _ l2)

lemma sorted_event_list_perm_eq (l1 l2 : List (ℤ × SvgLineGraphEvent))
    (hperm : l1.Perm l2) (hnd : (l1.map Prod.fst).Nodup) :
    sorted_event_list l1 = sorted_event_list l2 := by
  unfold sorted_event_list
  rw [insertion_sort_perm_eq _ _ (hperm.map Prod.fst)]
  exact mapM_congr_fun _ _ _ (fun p hp => by rw [lookup_event_perm l1 l2 hperm hnd p])

lemma add_event_list_fields (g : SvgLineGraph) (L : List (ℤ × String × Option String)) :
    (add_event_list g L).x_labels = g.x_labels ∧ (add_event_list g L).series = g.series ∧
    (add_event_list g L).y_min = g.y_min ∧ (add_event_list g L).y_max = g.y_max ∧
    (add_event_list g L).x_range = g.x_range ∧ (add_event_list g L).style = g.style := by
  induction L generalizing g with
  | nil => exact ⟨rfl, rfl, rfl, rfl, rfl, rfl⟩
  | cons t rest ih => exact ih (g.add_event t.1 t.2.1 t.2.2)

lemma add_event_list_events (g : SvgLineGraph) (L : List (ℤ × String × Option String))
    (hnd : (L.map Prod.fst).Nodup)
    (hfresh : ∀ p ∈ L.map Prod.fst, p ∉ g.events.map Prod.fst) :
    (add_event_list g L).events
      = g.events ++ L.map (fun t => (t.1, mk_event t.1 t.2.1 t.2.2)) := by
  induction L generalizing g with
  | nil => simp [add_event_list]
  | cons t rest ih =>
    have hstep : (g.add_event t.1 t.2.1 t.2.2).events
        = g.events ++ [(t.1, mk_event t.1 t.2.1 t.2.2)] := by
      rw [SvgLineGraph.add_event]
      exact insert_event_fresh _ _ _
        (lookup_event_none_of_not_mem _ _ (hfresh t.1 (by simp)))
    have hrec := ih (g.add_event t.1 t.2.1 t.2.2)
      (by simp only [List.map_cons, List.nodup_cons] at hnd; exact hnd.2) ?_
    · show (add_event_list (g.add_event t.1 t.2.1 t.2.2) rest).events = _
      rw [hrec, hstep]
      simp
    · intro p hp
      rw [hstep]
      simp only [List.map_append, List.mem_append]
      push_neg
      refine ⟨hfresh p (by simp [hp]), ?_⟩
      simp only [List.map_cons, List.nodup_cons] at hnd
      simp only [List.map_cons, List.map_nil, List.mem_cons]
      rintro (h | h)
      · exact hnd.1 (h ▸ hp)
      · simp at h
  termination_by L.length

/-- C7: events render in ascending `x_position` order regardless of insertion
order; an `add_event` at an occupied position replaces the former event; the
event mapping holds at most one event per position; and the rendered output is
invariant under permuting `add_event` calls at distinct positions. -/
theorem c7_event_order_invariance (g0 : SvgLineGraph) (hg : g0.events = [])
    (L Lp : List (ℤ × String × Option String)) (hperm : L.Perm Lp)
    (hnd : (L.map Prod.fst).Nodup) (w h : ℚ)
    (g1 : SvgLineGraph) (k : ℤ) (na nb : String) (ca cb : Option String) :
    lookup_event ((g1.add_event k na ca).add_event k nb cb).events k
      = some (mk_event k nb cb) ∧
    ((add_event_list g0 L).events.map Prod.fst).Nodup ∧
    (∃ evs, sorted_event_list (add_event_list g0 L).events = Except.ok evs ∧
       List.Sorted (· ≤ ·) (evs.map Prod.fst)) ∧
    (add_event_list g0 L).render w h = (add_event_list g0 Lp).render w h := by
  have hndp : (Lp.map Prod.fst).Nodup := (hperm.map Prod.fst).nodup_iff.mp hnd
  have hEL : (add_event_list g0 L).events
      = L.map (fun t => (t.1, mk_event t.1 t.2.1 t.2.2)) := by
    rw [add_event_list_events g0 L hnd (by rw [hg]; simp), hg]
    simp
  have hELp : (add_event_list g0 Lp).events
      = Lp.map (fun t => (t.1, mk_event t.1 t.2.1 t.2.2)) := by
    rw [add_event_list_events g0 Lp hndp (by rw [hg]; simp), hg]
    simp
  have hkeys : ((add_event_list g0 L).events.map Prod.fst) = L.map Prod.fst := by
    rw [hEL, List.map_map]
    rfl
  have hndE : ((add_event_list g0 L).events.map Prod.fst).Nodup := by
    rw [hkeys]
    exact hnd
  refine ⟨?_, hndE, ?_, ?_⟩
  · show lookup_event (insert_event (insert_event g1.events k (mk_event k na ca)) k
      (mk_event k nb cb)) k = some (mk_event k nb cb)
    exact lookup_insert_event_self _ _ _
  · have hmem : ∀ p ∈ ((add_event_list g0 L).events.map Prod.fst).insertionSort (· ≤ ·),
        ∃ e, lookup_event (add_event_list g0 L).events p = some e := by
      intro p hp
      exact lookup_event_mem _ _ ((List.perm_insertionSort _ _).mem_iff.mp hp)
    obtain ⟨evs, hok, hfst⟩ := mapM_event_lookup_ok (add_event_list g0 L).events _ hmem
    refine ⟨evs, hok, ?_⟩
    rw [hfst]
    exact List.sorted_insertionSort _ _
  · have hpermE : (add_event_list g0 L).events.Perm (add_event_list g0 Lp).events := by
      rw [hEL, hELp]
      exact hperm.map _
    have hsort : sorted_event_list (add_event_list g0 L).events
        = sorted_event_list (add_event_list g0 Lp).events :=
      sorted_event_list_perm_eq _ _ hpermE hndE
    have hempty : (add_event_list g0 L).events.isEmpty
        = (add_event_list g0 Lp).events.isEmpty := by
      rw [hEL, hELp]
      rcases L with _ | ⟨t, rest⟩
      · rw [hperm.symm.eq_nil]
      · rcases Lp with _ | ⟨t2, rest2⟩
        · have := hperm.length_eq
          simp at this
        · rfl
    obtain ⟨hx1, hs1, hm1, hM1, hr1, hst1⟩ := add_event_list_fields g0 L
    obtain ⟨hx2, hs2, hm2, hM2, hr2, hst2⟩ := add_event_list_fields g0 Lp
    unfold SvgLineGraph.render
    rw [hx1, hs1, hm1, hM1, hr1, hst1, hx2, hs2, hm2, hM2, hr2, hst2, hempty, hsort]

/-- C7 witness: events added at positions [5, 2], compared with insertion order
[2, 5]. -/
theorem c7_witness :
    lookup_event (((mk_graph none default_line_graph_style).add_event 1 "x" none).add_event
        1 "y" none).events 1 = some (mk_event 1 "y" none) ∧
    ((add_event_list (mk_graph none default_line_graph_style)
        [(5, "a", none), (2, "b", none)]).events.map Prod.fst).Nodup ∧
    (∃ evs, sorted_event_list (add_event_list (mk_graph none default_line_graph_style)
        [(5, "a", none), (2, "b", none)]).events = Except.ok evs ∧
       List.Sorted (· ≤ ·) (evs.map Prod.fst)) ∧
    (add_event_list (mk_graph none default_line_graph_style)
        [(5, "a", none), (2, "b", none)]).render 100 80
      = (add_event_list (mk_graph none default_line_graph_style)
        [(2, "b", none), (5, "a", none)]).render 100 80 :=
  c7_event_order_invariance (mk_graph none default_line_graph_style) rfl
    [(5, "a", none), (2, "b", none)] [(2, "b", none), (5, "a", none)]
    (List.Perm.swap (2, "b", none) (5, "a", none) [])
    (by decide) 100 80 (mk_graph none default_line_graph_style) 1 "x" "y" none none
